import Mathlib

/-!
Verification of the GIS format converter pipeline (src/app.py).

The Python program delegates all geometry work to external libraries
(geopandas / shapely / GDAL drivers).  The embedding below models a feature
collection as attribute rows paired with geometries plus an optional CRS,
and models every external library call as a field of a `GeoLib` oracle
returning `Except String _` (an exception or a result).  The application's
own control flow — extension dispatch, per-stage try/except, note
accumulation, field truncation, batch loop — is translated directly from
the source.
-/

set_option autoImplicit false

namespace GISConv

/-! ### Python string primitives used by the source -/

/-- `s[:n]` on a Python string: the first `n` characters. -/
def strTake (s : String) (n : Nat) : String := ⟨s.data.take n⟩

/-- Python `s.lower()` (ASCII case folding, which covers every extension
and format key the program compares). -/
def pyLower (s : String) : String := ⟨s.data.map Char.toLower⟩

/-- Index of the last `'.'` in a character list (Python `str.rfind('.')`),
`none` when absent. -/
def rfindDot (b : List Char) : Option Nat :=
  match b.reverse.findIdx? (fun c => c = '.') with
  | none => none
  | some j => some (b.length - 1 - j)

/-- `pathlib.Path(name).suffix` for a plain file name (uploads carry bare
names, no directory separators): the extension including the dot, or `""`
when the name has no usable extension. -/
def pySuffix (name : String) : String :=
  let b := name.data
  match rfindDot b with
  | some i => if 0 < i ∧ i < b.length - 1 then ⟨b.drop i⟩ else ""
  | none => ""

/-- `pathlib.Path(name).stem` for a plain file name. -/
def pyStem (name : String) : String :=
  let b := name.data
  match rfindDot b with
  | some i => if 0 < i ∧ i < b.length - 1 then ⟨b.take i⟩ else name
  | none => name

/-- All-digit parse of a character list, `none` if empty or a non-digit
occurs. -/
def parseDigits (ds : List Char) : Option Nat :=
  match ds with
  | [] => none
  | _ => if ds.all Char.isDigit then
           some (ds.foldl (fun a c => a * 10 + (c.toNat - 48)) 0)
         else none

/-- Python `int(s)`: strip surrounding whitespace, optional sign, digits. -/
def pyInt (s : String) : Option Int :=
  let t := ((s.data.dropWhile Char.isWhitespace).reverse.dropWhile
              Char.isWhitespace).reverse
  match t with
  | '-' :: ds => (parseDigits ds).map (fun n => -(n : Int))
  | '+' :: ds => (parseDigits ds).map (fun n => (n : Int))
  | ds => (parseDigits ds).map (fun n => (n : Int))

/-- `"\n".join(lines) or "No details."` from the report writer. -/
def joinReport (lines : List String) : String :=
  let s := String.intercalate "\n" lines
  if s = "" then "No details." else s

/-! ### Data model: CRS and feature collections -/

/-- A coordinate reference system as the program observes it: only its
EPSG code (`pyproj.CRS.to_epsg()`, which may be `None`). -/
structure CRS where
  epsg : Option Int
deriving DecidableEq, Repr

/-- A geopandas `GeoDataFrame`: attribute column names, rows of
(attribute record, geometry), and an optional CRS.  `A` is the opaque type
of one row's non-geometry attributes, `G` the opaque geometry type. -/
structure GeoDataFrame (A G : Type) where
  cols : List String
  rows : List (A × G)
  crs : Option CRS
deriving DecidableEq, Repr

/-- `gdf.set_crs(n, allow_override=True)`: relabel only, geometries kept. -/
def set_crs {A G : Type} (gdf : GeoDataFrame A G) (n : Int) : GeoDataFrame A G :=
  { gdf with crs := some ⟨some n⟩ }

/-- `list(gdf.columns)`: the attribute columns plus the geometry column. -/
def gdfColumns {A G : Type} (gdf : GeoDataFrame A G) : List String :=
  gdf.cols ++ ["geometry"]

/-- The sidebar option set read by the pipeline helpers. -/
structure Options where
  do_make_valid : Bool
  use_buffer_fix : Bool
  do_simplify : Bool
  simplify_tol : ℚ
  auto_rename_fields : Bool
  target_epsg : String

/-- The external geospatial library, as an oracle.  Per-geometry operations
(`make_valid`, `buffer(0)`, `simplify`, coordinate transform) act
elementwise, as the pandas `apply`/vectorised calls do; writers consume a
whole collection and produce output bytes of type `B`.  `make_valid` is
`none` when the `from shapely import make_valid` import failed. -/
structure GeoLib (A G B : Type) where
  make_valid : Option (G → Except String G)
  buffer0 : G → Except String G
  simplify : ℚ → G → Except String G
  transform : Int → G → Except String G
  to_json : GeoDataFrame A G → Except String B
  gpkg_write : GeoDataFrame A G → Except String B
  kml_write : GeoDataFrame A G → Except String B
  gpx_write : GeoDataFrame A G → Except String B
  shp_write : GeoDataFrame A G → Except String B
  zip_pack : B → B

/-! ### Elementwise geometry maps -/

/-- Apply a fallible per-geometry function to every row, propagating the
first exception (as `Series.apply` / vectorised shapely calls do). -/
def mapRowGeoms {A G : Type} (f : G → Except String G) :
    List (A × G) → Except String (List (A × G))
  | [] => Except.ok []
  | (a, g) :: rest =>
    match f g with
    | Except.error e => Except.error e
    | Except.ok g2 =>
      match mapRowGeoms f rest with
      | Except.error e => Except.error e
      | Except.ok r2 => Except.ok ((a, g2) :: r2)

/-- `gdf["geometry"] = gdf.geometry.apply(f)`: replace only the geometry
column, or raise. -/
def mapGeoms {A G : Type} (f : G → Except String G) (gdf : GeoDataFrame A G) :
    Except String (GeoDataFrame A G) :=
  match mapRowGeoms f gdf.rows with
  | Except.ok rs => Except.ok { gdf with rows := rs }
  | Except.error e => Except.error e

/-! ### Geometry conditioning (`_apply_repairs_and_ops`, src/app.py:290) -/

/-- The `make_valid` block: runs when the checkbox is on and the import
succeeded; a raise is caught and becomes a failure note, leaving the
collection untouched. -/
def mvStage {A G B : Type} (lib : GeoLib A G B) (opts : Options) :
    GeoDataFrame A G × List String → GeoDataFrame A G × List String
  | (gdf, notes) =>
    match opts.do_make_valid, lib.make_valid with
    | true, some mv =>
      (match mapGeoms mv gdf with
       | Except.ok g => (g, notes ++ ["Applied make_valid."])
       | Except.error e => (gdf, notes ++ ["make_valid failed: " ++ e]))
    | _, _ => (gdf, notes)

/-- The `buffer(0)` block. -/
def bufStage {A G B : Type} (lib : GeoLib A G B) (opts : Options) :
    GeoDataFrame A G × List String → GeoDataFrame A G × List String
  | (gdf, notes) =>
    if opts.use_buffer_fix then
      match mapGeoms lib.buffer0 gdf with
      | Except.ok g => (g, notes ++ ["Applied buffer(0) fix."])
      | Except.error e => (gdf, notes ++ ["buffer(0) failed: " ++ e])
    else (gdf, notes)

/-- The simplification block: guarded by `do_simplify and simplify_tol > 0`. -/
def simpStage {A G B : Type} (lib : GeoLib A G B) (opts : Options) :
    GeoDataFrame A G × List String → GeoDataFrame A G × List String
  | (gdf, notes) =>
    if opts.do_simplify ∧ 0 < opts.simplify_tol then
      match mapGeoms (lib.simplify opts.simplify_tol) gdf with
      | Except.ok g => (g, notes ++ ["Simplified (tol=" ++ toString opts.simplify_tol ++ ")."])
      | Except.error e => (gdf, notes ++ ["Simplify failed: " ++ e])
    else (gdf, notes)

/-- `_apply_repairs_and_ops`: the three conditioning blocks in source
order, threading the collection and the notes list. -/
def _apply_repairs_and_ops {A G B : Type} (lib : GeoLib A G B) (opts : Options)
    (gdf : GeoDataFrame A G) : GeoDataFrame A G × List String :=
  simpStage lib opts (bufStage lib opts (mvStage lib opts (gdf, [])))

/-! ### Reprojection (`_reproject`, src/app.py:313) -/

/-- `gdf.to_crs(tgt)`: transform every geometry, set the CRS on success. -/
def to_crs {A G B : Type} (lib : GeoLib A G B) (tgt : Int)
    (gdf : GeoDataFrame A G) : Except String (GeoDataFrame A G) :=
  match mapRowGeoms (lib.transform tgt) gdf.rows with
  | Except.ok rs => Except.ok { cols := gdf.cols, rows := rs, crs := some ⟨some tgt⟩ }
  | Except.error e => Except.error e

/-- `_reproject(gdf, epsg)`: never raises; returns the (possibly
unchanged) collection and an optional note. -/
def _reproject {A G B : Type} (lib : GeoLib A G B) (gdf : GeoDataFrame A G)
    (epsg : String) : GeoDataFrame A G × Option String :=
  match pyInt epsg with
  | none => (gdf, some "Invalid target EPSG; kept original CRS.")
  | some tgt =>
    match gdf.crs with
    | none => (gdf, some "Source CRS unknown; cannot reproject.")
    | some c =>
      if c.epsg = some tgt then (gdf, none)
      else
        match to_crs lib tgt gdf with
        | Except.ok g => (g, some ("Reprojected to EPSG:" ++ toString tgt ++ "."))
        | Except.error e => (gdf, some ("Reprojection failed: " ++ e))

/-! ### Shapefile field truncation (`_truncate_fields_for_shp`, src/app.py:329) -/

/-- The warning line appended for one over-long field. -/
def truncWarn (c : String) : String :=
  "Field '" ++ c ++ "' → '" ++ strTake c 10 ++ "' (Shapefile 10-char limit)"

/-- `_truncate_fields_for_shp(columns)`: rename mapping (as an association
list, insertion order) and one warning per field longer than 10 chars. -/
def _truncate_fields_for_shp : List String → List (String × String) × List String
  | [] => ([], [])
  | c :: rest =>
    let mw := _truncate_fields_for_shp rest
    if 10 < c.length then ((c, strTake c 10) :: mw.1, truncWarn c :: mw.2)
    else mw

/-- `df.rename(columns=mapping)` on one column label. -/
def applyRename (mapping : List (String × String)) (c : String) : String :=
  (mapping.lookup c).getD c

/-- `gdf.rename(columns=mapping)`: relabel attribute columns (the mapping
built by `_truncate_fields_for_shp` can never name the geometry column,
whose 8-char name is below the limit). -/
def renameColumns {A G : Type} (gdf : GeoDataFrame A G)
    (mapping : List (String × String)) : GeoDataFrame A G :=
  { gdf with cols := gdf.cols.map (applyRename mapping) }

/-! ### Export (`_gdf_to_bytes`, src/app.py:340) -/

/-- Exceptions leaving `_gdf_to_bytes`: the explicit
`ValueError("Unsupported output format: ...")`, or a propagated driver
exception. -/
inductive ExportErr where
  | unsupportedFormat (fmt : String)
  | driverError (msg : String)
deriving DecidableEq, Repr

/-- `str(e)` of an export exception, as interpolated into report lines. -/
def ExportErr.message : ExportErr → String
  | .unsupportedFormat f => "Unsupported output format: " ++ f
  | .driverError m => m

/-- Result of `_gdf_to_bytes`.  `ok` is the returned triple (bytes, file
name, messages).  `err` is an exception leaving the function; it carries
the local `msgs` list at the moment of the raise (discarded by the Python
caller, but recording that the note was appended before re-raising). -/
inductive ExportResult (B : Type) where
  | ok (bytes : B) (name : String) (msgs : List String)
  | err (e : ExportErr) (msgs : List String)
deriving DecidableEq, Repr

/-- The KML-only CRS relabel: `if gdf.crs is None or gdf.crs.to_epsg() !=
4326: gdf = gdf.set_crs(4326, allow_override=True)` (label change only). -/
def kmlPrep {A G : Type} (gdf : GeoDataFrame A G) : GeoDataFrame A G :=
  match gdf.crs with
  | none => set_crs gdf 4326
  | some c => if c.epsg = some (4326 : Int) then gdf else set_crs gdf 4326

/-- `_gdf_to_bytes(gdf, out_fmt, base)`: lowercase the key, then dispatch
over the five supported formats in source order; anything else raises
`ValueError`. -/
def _gdf_to_bytes {A G B : Type} (lib : GeoLib A G B) (auto_rename_fields : Bool)
    (gdf : GeoDataFrame A G) (out_fmt : String) (base : String) : ExportResult B :=
  let fmt := pyLower out_fmt
  if fmt = "geojson" then
    match lib.to_json gdf with
    | Except.ok b => ExportResult.ok b (base ++ ".geojson") []
    | Except.error e => ExportResult.err (ExportErr.driverError e) []
  else if fmt = "gpkg" then
    match lib.gpkg_write gdf with
    | Except.ok b => ExportResult.ok b (base ++ ".gpkg") []
    | Except.error e => ExportResult.err (ExportErr.driverError e) []
  else if fmt = "kml" then
    let g := kmlPrep gdf
    match lib.kml_write g with
    | Except.ok b => ExportResult.ok b (base ++ ".kml") []
    | Except.error e =>
      ExportResult.err (ExportErr.driverError e)
        ["KML write failed (" ++ e ++ "); use GeoJSON/GPKG instead."]
  else if fmt = "gpx" then
    match lib.gpx_write gdf with
    | Except.ok b => ExportResult.ok b (base ++ ".gpx") []
    | Except.error e =>
      ExportResult.err (ExportErr.driverError e)
        ["GPX write failed (" ++ e ++ "); use GeoJSON/GPKG instead."]
  else if fmt = "shapefile" then
    let mw := _truncate_fields_for_shp (gdfColumns gdf)
    let gm : GeoDataFrame A G × List String :=
      if auto_rename_fields ∧ mw.1 ≠ [] then (renameColumns gdf mw.1, mw.2)
      else (gdf, [])
    match lib.shp_write gm.1 with
    | Except.ok b => ExportResult.ok (lib.zip_pack b) (base ++ ".zip") gm.2
    | Except.error e => ExportResult.err (ExportErr.driverError e) gm.2
  else ExportResult.err (ExportErr.unsupportedFormat fmt) []

/-! ### Vector ingestion (`_read_vector_any`, src/app.py:256) -/

/-- One uploaded file: its (bare) name, the entry paths a zip extraction
would produce in `rglob` enumeration order, and the `gpd.read_file` oracle
keyed by the path it is handed. -/
structure UploadedFile (A G : Type) where
  name : String
  zipEntries : List String
  read : String → Except String (GeoDataFrame A G)

/-- Whether a relative path matches `rglob("*.shp")` (case-sensitive
suffix match on the file name; `".shp"` contains no separator, so matching
the final component equals matching the whole path's suffix). -/
def matchesShp (e : String) : Bool := ".shp".data.isSuffixOf e.data

/-- `_read_vector_any(path)`: `.zip` inputs are extracted and the first
`.shp` found recursively is read; no `.shp` raises `ValueError`; every
other extension goes straight to `gpd.read_file`. -/
def _read_vector_any {A G : Type} (uf : UploadedFile A G) :
    Except String (GeoDataFrame A G) :=
  if pyLower (pySuffix uf.name) = ".zip" then
    match uf.zipEntries.filter matchesShp with
    | [] => Except.error "No .shp found inside the uploaded .zip"
    | p :: _ => uf.read p
  else uf.read uf.name

/-! ### Tabular ingestion (`_read_csv_points`, src/app.py:268) -/

/-- One table cell as `pandas.read_csv` delivers it: a number, the missing
marker (NaN/None), or a leftover string. -/
inductive Cell where
  | num (q : ℚ)
  | nan
  | str (s : String)
deriving DecidableEq, Repr

/-- `pd.isna` on a cell. -/
def Cell.isna : Cell → Bool
  | .nan => true
  | _ => false

/-- `pd.to_numeric(_, errors="coerce")` on a cell; `pnum` is the library's
numeric-string parser. -/
def toNumeric (pnum : String → Option ℚ) : Cell → Cell
  | .num q => .num q
  | .nan => .nan
  | .str s => match pnum s with
    | some q => .num q
    | none => .nan

/-- The numeric value of a (coerced, non-missing) cell. -/
def Cell.val : Cell → ℚ
  | .num q => q
  | _ => 0

/-- A parsed `pandas.DataFrame`: column labels and rows of cells. -/
structure DataFrame where
  cols : List String
  rows : List (List Cell)
deriving DecidableEq, Repr

/-- Row access at a column position. -/
def cellAt (r : List Cell) (i : Nat) : Cell := r.getD i Cell.nan

/-- A point geometry `Point(lon, lat)` with rational coordinates. -/
structure Point where
  x : ℚ
  y : ℚ
deriving DecidableEq, Repr

/-- `df.dropna(subset=[lat_col, lon_col])` row predicate: both coordinate
cells present. -/
def keepRow (iLat iLon : Nat) (r : List Cell) : Bool :=
  !(cellAt r iLat).isna && !(cellAt r iLon).isna

/-- The two column coercions
`df[lat_col] = pd.to_numeric(df[lat_col], errors="coerce")` and likewise
for `lon_col`, acting on one row. -/
def coerceRow (pnum : String → Option ℚ) (iLat iLon : Nat) (r : List Cell) :
    List Cell :=
  let r2 := r.set iLat (toNumeric pnum (cellAt r iLat))
  r2.set iLon (toNumeric pnum (cellAt r2 iLon))

/-- `_read_csv_points` after the external file parse (`pd.read_csv` /
`pd.read_excel` produced `df`): check the selected columns exist, drop
rows with missing coordinates, coerce both coordinate columns to numeric,
drop rows made missing by the coercion, then build one `Point(lon, lat)`
per surviving row with CRS `EPSG:{src_epsg}`. -/
def _read_csv_points (pnum : String → Option ℚ) (df : DataFrame)
    (lat_col lon_col src_epsg : String) :
    Except String (GeoDataFrame (List Cell) Point) :=
  if lat_col ∈ df.cols ∧ lon_col ∈ df.cols then
    let iLat := df.cols.indexOf lat_col
    let iLon := df.cols.indexOf lon_col
    let rows1 := df.rows.filter (keepRow iLat iLon)
    let rows2 := rows1.map (coerceRow pnum iLat iLon)
    let rows3 := rows2.filter (keepRow iLat iLon)
    match pyInt src_epsg with
    | some n =>
      Except.ok
        { cols := df.cols
          rows := rows3.map (fun r => (r, ⟨(cellAt r iLon).val, (cellAt r iLat).val⟩))
          crs := some ⟨some n⟩ }
    | none => Except.error ("Invalid CRS: EPSG:" ++ src_epsg)
  else Except.error "Selected Lat/Lon columns not found."

/-! ### Batch orchestrator (`do_batch` loop, src/app.py:449) -/

/-- One entry written into the result archive: output bytes
(`z.writestr(out_name, out_bytes)`) or report text
(`z.writestr(rep_name, rep_text)`). -/
inductive ZipData (B : Type) where
  | bytes (b : B)
  | text (t : String)
deriving DecidableEq, Repr

/-- Is this archive entry an output artifact? -/
def ZipData.isBytes {B : Type} : ZipData B → Bool
  | .bytes _ => true
  | _ => false

/-- Is this archive entry a report text file? -/
def ZipData.isText {B : Type} : ZipData B → Bool
  | .text _ => true
  | _ => false

/-- `str(gdf.crs)` as interpolated into the "Loaded vector" line. -/
def crsStr : Option CRS → String
  | none => "None"
  | some c =>
    match c.epsg with
    | some n => "EPSG:" ++ toString n
    | none => "CRS"

/-- The fixed skip note for tabular inputs in batch mode. -/
def skipNote : String :=
  "Skipped: CSV/XLSX needs column mapping in single-file wizard mode."

/-- `ext in TAB_INPUTS` for a file name (`.csv` / `.xlsx`, lowercased). -/
def isTabular (name : String) : Bool :=
  let ext := pyLower (pySuffix name)
  ext = ".csv" || ext = ".xlsx"

/-- One iteration of the batch loop: the archive entries it writes (in
write order) and the `(rep_name, rep_text)` pair appended to `reports`.
The `try`/`except` around the job body becomes the two `error` branches,
each appending the `Read/Process failed:` line; the report is written in
every case. -/
def processOne {A G B : Type} (lib : GeoLib A G B) (opts : Options)
    (out_fmt : String) (uf : UploadedFile A G) :
    List (String × ZipData B) × (String × String) :=
  let stem := pyStem uf.name
  if isTabular uf.name then
    let rep := joinReport [skipNote]
    ([(stem ++ "_report.txt", ZipData.text rep)], (stem ++ "_report.txt", rep))
  else
    let res : List (String × ZipData B) × List String :=
      match _read_vector_any uf with
      | Except.error e => ([], ["Read/Process failed: " ++ e])
      | Except.ok gdf0 =>
        let l0 := ["Loaded vector with " ++ toString gdf0.rows.length ++
                   " features. CRS=" ++ crsStr gdf0.crs ++ "."]
        let p1 := _apply_repairs_and_ops lib opts gdf0
        let l1 := l0 ++ p1.2
        let p2 := _reproject lib p1.1 opts.target_epsg
        let l2 := l1 ++ (match p2.2 with
          | some n => [n]
          | none => [])
        match _gdf_to_bytes lib opts.auto_rename_fields p2.1 out_fmt stem with
        | ExportResult.err e _ => ([], l2 ++ ["Read/Process failed: " ++ e.message])
        | ExportResult.ok b nm msgs =>
          ([(nm, ZipData.bytes b)], l2 ++ msgs ++ ["Exported: " ++ nm])
    let rep := joinReport res.2
    (res.1 ++ [(stem ++ "_report.txt", ZipData.text rep)],
     (stem ++ "_report.txt", rep))

/-- The whole batch: sequential loop over the uploads, concatenating each
job's archive writes and collecting each job's report. -/
def run_batch {A G B : Type} (lib : GeoLib A G B) (opts : Options)
    (out_fmt : String) (files : List (UploadedFile A G)) :
    List (String × ZipData B) × List (String × String) :=
  ((files.map (fun uf => (processOne lib opts out_fmt uf).1)).flatten,
   files.map (fun uf => (processOne lib opts out_fmt uf).2))

/-- Does ingestion fail for this upload? -/
def isReadFail {A G : Type} (uf : UploadedFile A G) : Bool :=
  match _read_vector_any uf with
  | Except.error _ => true
  | Except.ok _ => false

/-- Does the whole load/condition/reproject/export pipeline succeed for
this upload (ignoring the tabular gate)? -/
def jobExportOk {A G B : Type} (lib : GeoLib A G B) (opts : Options)
    (out_fmt : String) (uf : UploadedFile A G) : Bool :=
  match _read_vector_any uf with
  | Except.error _ => false
  | Except.ok gdf0 =>
    let p1 := _apply_repairs_and_ops lib opts gdf0
    let p2 := _reproject lib p1.1 opts.target_epsg
    match _gdf_to_bytes lib opts.auto_rename_fields p2.1 out_fmt (pyStem uf.name) with
    | ExportResult.ok _ _ _ => true
    | ExportResult.err _ _ => false

/-! ### Helper lemmas -/

theorem mapRowGeoms_ok_fst {A G : Type} (f : G → Except String G) :
    ∀ (rows rows' : List (A × G)), mapRowGeoms f rows = Except.ok rows' →
      rows'.map Prod.fst = rows.map Prod.fst := by
  intro rows
  induction rows with
  | nil =>
    intro rows' h
    simp only [mapRowGeoms] at h
    cases h
    rfl
  | cons p rest ih =>
    intro rows' h
    obtain ⟨a, g⟩ := p
    simp only [mapRowGeoms] at h
    cases hf : f g with
    | error e => rw [hf] at h; cases h
    | ok g2 =>
      rw [hf] at h
      cases hr : mapRowGeoms f rest with
      | error e => rw [hr] at h; cases h
      | ok r2 =>
        rw [hr] at h
        cases h
        simp [ih r2 hr]

theorem mapGeoms_ok_frame {A G : Type} (f : G → Except String G)
    (gdf g : GeoDataFrame A G) (h : mapGeoms f gdf = Except.ok g) :
    g.cols = gdf.cols ∧ g.crs = gdf.crs ∧ g.rows.map Prod.fst = gdf.rows.map Prod.fst := by
  simp only [mapGeoms] at h
  cases hr : mapRowGeoms f gdf.rows with
  | error e => rw [hr] at h; cases h
  | ok rs =>
    rw [hr] at h
    cases h
    exact ⟨rfl, rfl, mapRowGeoms_ok_fst f gdf.rows rs hr⟩

/-- Frame preservation for one conditioning block. -/
theorem mvStage_frame {A G B : Type} (lib : GeoLib A G B) (opts : Options)
    (p : GeoDataFrame A G × List String) :
    (mvStage lib opts p).1.cols = p.1.cols ∧ (mvStage lib opts p).1.crs = p.1.crs ∧
      (mvStage lib opts p).1.rows.map Prod.fst = p.1.rows.map Prod.fst := by
  obtain ⟨gdf, notes⟩ := p
  simp only [mvStage]
  cases hdm : opts.do_make_valid with
  | false => exact ⟨rfl, rfl, rfl⟩
  | true =>
    cases hmv : lib.make_valid with
    | none => exact ⟨rfl, rfl, rfl⟩
    | some mv =>
      dsimp only
      cases hm : mapGeoms mv gdf with
      | error e => exact ⟨rfl, rfl, rfl⟩
      | ok g =>
        have h := mapGeoms_ok_frame mv gdf g hm
        exact ⟨h.1, h.2.1, h.2.2⟩

theorem bufStage_frame {A G B : Type} (lib : GeoLib A G B) (opts : Options)
    (p : GeoDataFrame A G × List String) :
    (bufStage lib opts p).1.cols = p.1.cols ∧ (bufStage lib opts p).1.crs = p.1.crs ∧
      (bufStage lib opts p).1.rows.map Prod.fst = p.1.rows.map Prod.fst := by
  obtain ⟨gdf, notes⟩ := p
  simp only [bufStage]
  cases hdm : opts.use_buffer_fix with
  | false => simp
  | true =>
    cases hm : mapGeoms lib.buffer0 gdf with
    | error e => simp [hm]
    | ok g =>
      have h := mapGeoms_ok_frame lib.buffer0 gdf g hm
      simp [hm, h.1, h.2.1, h.2.2]

theorem simpStage_frame {A G B : Type} (lib : GeoLib A G B) (opts : Options)
    (p : GeoDataFrame A G × List String) :
    (simpStage lib opts p).1.cols = p.1.cols ∧ (simpStage lib opts p).1.crs = p.1.crs ∧
      (simpStage lib opts p).1.rows.map Prod.fst = p.1.rows.map Prod.fst := by
  obtain ⟨gdf, notes⟩ := p
  simp only [simpStage]
  by_cases hg : opts.do_simplify = true ∧ 0 < opts.simplify_tol
  · rw [if_pos hg]
    cases hm : mapGeoms (lib.simplify opts.simplify_tol) gdf with
    | error e => simp [hm]
    | ok g =>
      have h := mapGeoms_ok_frame _ gdf g hm
      simp [hm, h.1, h.2.1, h.2.2]
  · rw [if_neg hg]
    simp

theorem to_crs_ok_fst {A G B : Type} (lib : GeoLib A G B) (tgt : Int)
    (gdf g : GeoDataFrame A G) (h : to_crs lib tgt gdf = Except.ok g) :
    g.cols = gdf.cols ∧ g.rows.map Prod.fst = gdf.rows.map Prod.fst ∧
      g.crs = some ⟨some tgt⟩ := by
  simp only [to_crs] at h
  cases hr : mapRowGeoms (lib.transform tgt) gdf.rows with
  | error e => rw [hr] at h; cases h
  | ok rs =>
    rw [hr] at h
    cases h
    exact ⟨rfl, mapRowGeoms_ok_fst _ gdf.rows rs hr, rfl⟩

theorem truncate_fields_eq (cols : List String) :
    _truncate_fields_for_shp cols
      = ((cols.filter fun s => 10 < s.length).map (fun s => (s, strTake s 10)),
         (cols.filter fun s => 10 < s.length).map truncWarn) := by
  induction cols with
  | nil => rfl
  | cons c rest ih =>
    by_cases h : 10 < c.length
    · simp [_truncate_fields_for_shp, List.filter_cons, h, ih]
    · simp [_truncate_fields_for_shp, List.filter_cons, h, ih]

theorem lookup_map_self (f : String → String) (l : List String) (c : String)
    (h : c ∈ l) : (l.map fun x => (x, f x)).lookup c = some (f c) := by
  induction l with
  | nil => cases h
  | cons a rest ih =>
    by_cases hca : c = a
    · subst hca
      simp [List.lookup]
    · have hm : c ∈ rest := by
        cases h with
        | head => exact absurd rfl hca
        | tail _ hm => exact hm
      have hb : (c == a) = false := beq_eq_false_iff_ne.mpr hca
      simp [List.lookup, hb, ih hm]

theorem lookup_none_of_all_ne (m : List (String × String)) (c : String)
    (h : ∀ p ∈ m, p.1 ≠ c) : m.lookup c = none := by
  induction m with
  | nil => rfl
  | cons p rest ih =>
    obtain ⟨k, v⟩ := p
    have hk : k ≠ c := h (k, v) (List.mem_cons_self _ _)
    have hb : (c == k) = false := beq_eq_false_iff_ne.mpr (fun hh => hk hh.symm)
    simp only [List.lookup, hb]
    exact ih (fun q hq => h q (List.mem_cons_of_mem _ hq))

theorem strTake_length (c : String) (n : Nat) :
    (strTake c n).length = min n c.length := by
  show (c.data.take n).length = min n c.data.length
  exact List.length_take n c.data

theorem cellAt_set_self (r : List Cell) (i : Nat) (c : Cell) (h : i < r.length) :
    cellAt (r.set i c) i = c := by
  simp [cellAt, List.getD_eq_getElem?_getD, List.getElem?_set_self h]

theorem cellAt_set_self_nan (r : List Cell) (i : Nat) :
    cellAt (r.set i Cell.nan) i = Cell.nan := by
  by_cases h : i < r.length
  · exact cellAt_set_self r i _ h
  · have hlen : (r.set i Cell.nan).length ≤ i := by
      simpa [List.length_set] using Nat.le_of_not_lt h
    simp [cellAt, List.getD_eq_getElem?_getD, List.getElem?_eq_none_iff.mpr hlen]

theorem cellAt_set_ne (r : List Cell) (i j : Nat) (c : Cell) (h : i ≠ j) :
    cellAt (r.set i c) j = cellAt r j := by
  simp [cellAt, List.getD_eq_getElem?_getD, List.getElem?_set_ne h]

theorem isna_eq_nan (c : Cell) (h : c.isna = true) : c = Cell.nan := by
  cases c <;> first | rfl | simp [Cell.isna] at h

/-- A row already missing a coordinate is still missing it after the
numeric coercion of both coordinate columns. -/
theorem keepRow_coerce_false (pnum : String → Option ℚ) (iLat iLon : Nat)
    (r : List Cell) (h : keepRow iLat iLon r = false) :
    keepRow iLat iLon (coerceRow pnum iLat iLon r) = false := by
  simp only [coerceRow]
  cases hLat : (cellAt r iLat).isna with
  | true =>
    have hn : cellAt r iLat = Cell.nan := isna_eq_nan _ hLat
    rw [hn]
    by_cases hij : iLat = iLon
    · subst hij
      rw [show toNumeric pnum Cell.nan = Cell.nan from rfl,
          cellAt_set_self_nan r iLat,
          show toNumeric pnum Cell.nan = Cell.nan from rfl]
      simp [keepRow, cellAt_set_self_nan, Cell.isna]
    · have h1 : cellAt ((r.set iLat (toNumeric pnum Cell.nan)).set iLon
          (toNumeric pnum (cellAt (r.set iLat (toNumeric pnum Cell.nan)) iLon))) iLat
          = Cell.nan := by
        rw [cellAt_set_ne _ iLon iLat _ (fun hh => hij hh.symm),
            show toNumeric pnum Cell.nan = Cell.nan from rfl,
            cellAt_set_self_nan]
      simp [keepRow, h1, Cell.isna]
  | false =>
    cases hLon : (cellAt r iLon).isna with
    | false => simp [keepRow, hLat, hLon] at h
    | true =>
      have hn : cellAt r iLon = Cell.nan := isna_eq_nan _ hLon
      by_cases hij : iLat = iLon
      · rw [hij, hn] at hLat
        simp [Cell.isna] at hLat
      · have h2 : cellAt (r.set iLat (toNumeric pnum (cellAt r iLat))) iLon
            = Cell.nan := by rw [cellAt_set_ne _ iLat iLon _ hij, hn]
        rw [h2, show toNumeric pnum Cell.nan = Cell.nan from rfl]
        simp [keepRow, cellAt_set_self_nan, Cell.isna]

/-- Filtering after a map absorbs an earlier filter whose rejects are
also rejected afterwards. -/
theorem filter_map_filter {α β : Type} (q : α → Bool) (f : α → β) (p : β → Bool)
    (h : ∀ x, q x = false → p (f x) = false) (l : List α) :
    ((l.filter q).map f).filter p = (l.map f).filter p := by
  induction l with
  | nil => rfl
  | cons a t ih =>
    cases hq : q a with
    | true => simp [List.filter_cons, hq, ih]
    | false => simp [List.filter_cons, hq, h a hq, ih]

/-! ### Claim theorems -/

/-- C2: `_reproject` never raises (it is a total function into a
collection/note pair) and implements the decision table: unparseable
target → unchanged with the invalid-target note; unknown CRS → unchanged
with the cannot-reproject note; CRS already equal to the target →
unchanged (the very same collection, hence byte-identical geometries) and
no note; transform failure → unchanged with a failure note; otherwise the
transformed collection carries the target CRS and a success note. -/
theorem reproject_decision_table {A G B : Type} (lib : GeoLib A G B)
    (gdf : GeoDataFrame A G) (epsg : String) :
    (pyInt epsg = none →
      _reproject lib gdf epsg = (gdf, some "Invalid target EPSG; kept original CRS.")) ∧
    (∀ tgt : Int, pyInt epsg = some tgt → gdf.crs = none →
      _reproject lib gdf epsg = (gdf, some "Source CRS unknown; cannot reproject.")) ∧
    (∀ (tgt : Int) (c : CRS), pyInt epsg = some tgt → gdf.crs = some c →
      c.epsg = some tgt → _reproject lib gdf epsg = (gdf, none)) ∧
    (∀ (tgt : Int) (c : CRS) (g : GeoDataFrame A G), pyInt epsg = some tgt →
      gdf.crs = some c → c.epsg ≠ some tgt → to_crs lib tgt gdf = Except.ok g →
      _reproject lib gdf epsg = (g, some ("Reprojected to EPSG:" ++ toString tgt ++ ".")) ∧
        g.crs = some ⟨some tgt⟩) ∧
    (∀ (tgt : Int) (c : CRS) (e : String), pyInt epsg = some tgt →
      gdf.crs = some c → c.epsg ≠ some tgt → to_crs lib tgt gdf = Except.error e →
      _reproject lib gdf epsg = (gdf, some ("Reprojection failed: " ++ e))) := by
  refine ⟨?_, ?_, ?_, ?_, ?_⟩
  · intro h
    simp [_reproject, h]
  · intro tgt h hc
    simp [_reproject, h, hc]
  · intro tgt c h hc he
    simp [_reproject, h, hc, he]
  · intro tgt c g h hc he hok
    refine ⟨?_, (to_crs_ok_fst lib tgt gdf g hok).2.2⟩
    simp [_reproject, h, hc, he, hok]
  · intro tgt c e h hc he herr
    simp [_reproject, h, hc, he, herr]

/-- C9: geometry conditioning and reprojection preserve the feature count,
the attribute column names, and every non-geometry attribute value; only
the geometry column (and, for reprojection, the CRS) can differ.
Conditioning additionally preserves the CRS. -/
theorem condition_reproject_frame {A G B : Type} (lib : GeoLib A G B)
    (opts : Options) (gdf : GeoDataFrame A G) (epsg : String) :
    ((_apply_repairs_and_ops lib opts gdf).1.cols = gdf.cols ∧
     (_apply_repairs_and_ops lib opts gdf).1.crs = gdf.crs ∧
     (_apply_repairs_and_ops lib opts gdf).1.rows.map Prod.fst = gdf.rows.map Prod.fst ∧
     (_apply_repairs_and_ops lib opts gdf).1.rows.length = gdf.rows.length) ∧
    ((_reproject lib gdf epsg).1.cols = gdf.cols ∧
     (_reproject lib gdf epsg).1.rows.map Prod.fst = gdf.rows.map Prod.fst ∧
     (_reproject lib gdf epsg).1.rows.length = gdf.rows.length) := by
  constructor
  · have h1 := mvStage_frame lib opts (gdf, [])
    have h2 := bufStage_frame lib opts (mvStage lib opts (gdf, []))
    have h3 := simpStage_frame lib opts (bufStage lib opts (mvStage lib opts (gdf, [])))
    have hc : (_apply_repairs_and_ops lib opts gdf).1.cols = gdf.cols := by
      rw [_apply_repairs_and_ops, h3.1, h2.1, h1.1]
    have hr : (_apply_repairs_and_ops lib opts gdf).1.crs = gdf.crs := by
      rw [_apply_repairs_and_ops, h3.2.1, h2.2.1, h1.2.1]
    have hf : (_apply_repairs_and_ops lib opts gdf).1.rows.map Prod.fst
        = gdf.rows.map Prod.fst := by
      rw [_apply_repairs_and_ops, h3.2.2, h2.2.2, h1.2.2]
    refine ⟨hc, hr, hf, ?_⟩
    have := congrArg List.length hf
    simpa using this
  · have key : (_reproject lib gdf epsg).1.cols = gdf.cols ∧
        (_reproject lib gdf epsg).1.rows.map Prod.fst = gdf.rows.map Prod.fst := by
      simp only [_reproject]
      cases hp : pyInt epsg with
      | none => exact ⟨rfl, rfl⟩
      | some tgt =>
        cases hc : gdf.crs with
        | none => exact ⟨rfl, rfl⟩
        | some c =>
          by_cases he : c.epsg = some tgt
          · simp [he]
          · simp only [if_neg he]
            cases ht : to_crs lib tgt gdf with
            | error e => simp [ht]
            | ok g =>
              have h2 := to_crs_ok_fst lib tgt gdf g ht
              simp [ht, h2.1, h2.2.1]
    refine ⟨key.1, key.2, ?_⟩
    have := congrArg List.length key.2
    simpa using this

/-- C8: a `.zip` upload is unpacked and the first `.shp` file found by
recursive search is handed to the vector reader; when the archive contains
no `.shp` file, ingestion fails with the missing-payload error instead of
returning a collection. -/
theorem zip_ingestion_missing_payload {A G : Type} (uf : UploadedFile A G)
    (hz : pyLower (pySuffix uf.name) = ".zip") :
    (uf.zipEntries.filter matchesShp = [] →
      _read_vector_any uf = Except.error "No .shp found inside the uploaded .zip") ∧
    (∀ (p : String) (ps : List String), uf.zipEntries.filter matchesShp = p :: ps →
      _read_vector_any uf = uf.read p) := by
  constructor
  · intro h
    simp [_read_vector_any, hz, h]
  · intro p ps h
    simp [_read_vector_any, hz, h]

/-- How one conditioning block behaves on a collection/notes pair when its
guard holds: on success the transformed collection and exactly one
"Applied …" note are appended; on an exception the collection is left
unmodified and exactly one "… failed: reason" note is appended. -/
def StageStep {A G : Type} (app : GeoDataFrame A G → Except String (GeoDataFrame A G))
    (okNote : String) (failNote : String → String)
    (inp out : GeoDataFrame A G × List String) : Prop :=
  (∃ g, app inp.1 = Except.ok g ∧ out = (g, inp.2 ++ [okNote])) ∨
  (∃ e, app inp.1 = Except.error e ∧ out = (inp.1, inp.2 ++ [failNote e]))

/-- C3: geometry conditioning is a total function (no exception escapes);
it is the fixed-order composition validity repair, then `buffer(0)`, then
simplification; a disabled block (including the validity repair when
`make_valid` failed to import, and simplification when the tolerance is
not positive) is the identity on both the collection and the notes; an
enabled block appends exactly one note — "Applied …" on success or
"… failed: reason" on a caught exception — and an exception leaves the
collection unmodified by that block. -/
theorem condition_stage_contract {A G B : Type} (lib : GeoLib A G B)
    (opts : Options) (gdf : GeoDataFrame A G) :
    _apply_repairs_and_ops lib opts gdf
        = simpStage lib opts (bufStage lib opts (mvStage lib opts (gdf, []))) ∧
    (∀ inp : GeoDataFrame A G × List String,
      ¬(opts.do_make_valid = true ∧ (lib.make_valid).isSome = true) →
        mvStage lib opts inp = inp) ∧
    (∀ (inp : GeoDataFrame A G × List String) (mv : G → Except String G),
      opts.do_make_valid = true → lib.make_valid = some mv →
        StageStep (mapGeoms mv) "Applied make_valid."
          (fun e => "make_valid failed: " ++ e) inp (mvStage lib opts inp)) ∧
    (∀ inp : GeoDataFrame A G × List String,
      opts.use_buffer_fix = false → bufStage lib opts inp = inp) ∧
    (∀ inp : GeoDataFrame A G × List String,
      opts.use_buffer_fix = true →
        StageStep (mapGeoms lib.buffer0) "Applied buffer(0) fix."
          (fun e => "buffer(0) failed: " ++ e) inp (bufStage lib opts inp)) ∧
    (∀ inp : GeoDataFrame A G × List String,
      ¬(opts.do_simplify = true ∧ 0 < opts.simplify_tol) →
        simpStage lib opts inp = inp) ∧
    (∀ inp : GeoDataFrame A G × List String,
      opts.do_simplify = true → 0 < opts.simplify_tol →
        StageStep (mapGeoms (lib.simplify opts.simplify_tol))
          ("Simplified (tol=" ++ toString opts.simplify_tol ++ ").")
          (fun e => "Simplify failed: " ++ e) inp (simpStage lib opts inp)) := by
  refine ⟨rfl, ?_, ?_, ?_, ?_, ?_, ?_⟩
  · rintro ⟨g0, ns⟩ hng
    simp only [mvStage]
    cases hdm : opts.do_make_valid with
    | false => rfl
    | true =>
      cases hmv : lib.make_valid with
      | none => rfl
      | some mv => exact absurd ⟨hdm, by rw [hmv]; rfl⟩ hng
  · rintro ⟨g0, ns⟩ mv hdm hmv
    simp only [mvStage, hdm, hmv]
    cases hm : mapGeoms mv g0 with
    | error e => exact Or.inr ⟨e, hm, rfl⟩
    | ok g => exact Or.inl ⟨g, hm, rfl⟩
  · rintro ⟨g0, ns⟩ hub
    simp [bufStage, hub]
  · rintro ⟨g0, ns⟩ hub
    simp only [bufStage, hub]
    cases hm : mapGeoms lib.buffer0 g0 with
    | error e => exact Or.inr ⟨e, hm, by simp⟩
    | ok g => exact Or.inl ⟨g, hm, by simp⟩
  · rintro ⟨g0, ns⟩ hng
    simp only [simpStage]
    rw [if_neg hng]
  · rintro ⟨g0, ns⟩ hds htol
    simp only [simpStage]
    rw [if_pos ⟨hds, htol⟩]
    cases hm : mapGeoms (lib.simplify opts.simplify_tol) g0 with
    | error e => exact Or.inr ⟨e, hm, rfl⟩
    | ok g => exact Or.inl ⟨g, hm, rfl⟩

/-- C4: with auto-rename enabled, shapefile export truncates every
attribute column name longer than 10 characters to exactly its first 10
characters in the schema handed to the shapefile writer, emits exactly one
warning note per offending field (the returned messages are precisely the
per-field warnings, in column order), and leaves names of length ≤ 10
unchanged with no note for them. -/
theorem shapefile_field_truncation {A G B : Type} (lib : GeoLib A G B)
    (gdf : GeoDataFrame A G) (base : String) (c : String)
    (hc : c ∈ gdfColumns gdf) :
    (_truncate_fields_for_shp (gdfColumns gdf)).2
        = ((gdfColumns gdf).filter fun s => 10 < s.length).map truncWarn ∧
    (10 < c.length →
      applyRename (_truncate_fields_for_shp (gdfColumns gdf)).1 c = strTake c 10 ∧
      (applyRename (_truncate_fields_for_shp (gdfColumns gdf)).1 c).length = 10) ∧
    (c.length ≤ 10 → applyRename (_truncate_fields_for_shp (gdfColumns gdf)).1 c = c) ∧
    (renameColumns gdf (_truncate_fields_for_shp (gdfColumns gdf)).1).cols
        = gdf.cols.map (applyRename (_truncate_fields_for_shp (gdfColumns gdf)).1) ∧
    (∀ b : B, (_truncate_fields_for_shp (gdfColumns gdf)).1 ≠ [] →
      lib.shp_write (renameColumns gdf (_truncate_fields_for_shp (gdfColumns gdf)).1)
          = Except.ok b →
      _gdf_to_bytes lib true gdf "shapefile" base
        = ExportResult.ok (lib.zip_pack b) (base ++ ".zip")
            (_truncate_fields_for_shp (gdfColumns gdf)).2) := by
  refine ⟨?_, ?_, ?_, rfl, ?_⟩
  · rw [truncate_fields_eq]
  · intro h10
    have hmem : c ∈ (gdfColumns gdf).filter fun s => 10 < s.length := by
      rw [List.mem_filter]
      exact ⟨hc, by simpa using h10⟩
    have hlook := lookup_map_self (fun s => strTake s 10)
      ((gdfColumns gdf).filter fun s => 10 < s.length) c hmem
    have hren : applyRename (_truncate_fields_for_shp (gdfColumns gdf)).1 c
        = strTake c 10 := by
      rw [truncate_fields_eq]
      simp [applyRename, hlook]
    refine ⟨hren, ?_⟩
    rw [hren, strTake_length]
    omega
  · intro hle
    have hnone : (_truncate_fields_for_shp (gdfColumns gdf)).1.lookup c = none := by
      rw [truncate_fields_eq]
      refine lookup_none_of_all_ne _ c ?_
      intro p hp
      obtain ⟨s, hs, rfl⟩ := List.mem_map.mp hp
      have hlong : 10 < s.length := by simpa using (List.mem_filter.mp hs).2
      intro hcon
      have hs2 : s = c := hcon
      rw [hs2] at hlong
      omega
    simp [applyRename, hnone]
  · intro b hne hw
    have hfmt : pyLower "shapefile" = "shapefile" := rfl
    simp only [_gdf_to_bytes, hfmt]
    rw [if_pos trivial,
        if_pos (show True ∧ (_truncate_fields_for_shp (gdfColumns gdf)).1 ≠ []
          from ⟨trivial, hne⟩)]
    dsimp only
    rw [hw]
    simp

/-- Witness fixture: a trivial oracle over unit geometry and unit bytes. -/
def unitLib : GeoLib Unit Unit Unit :=
  { make_valid := some (fun g => Except.ok g)
    buffer0 := fun g => Except.ok g
    simplify := fun _ g => Except.ok g
    transform := fun _ g => Except.ok g
    to_json := fun _ => Except.ok ()
    gpkg_write := fun _ => Except.ok ()
    kml_write := fun _ => Except.ok ()
    gpx_write := fun _ => Except.ok ()
    shp_write := fun _ => Except.ok ()
    zip_pack := fun b => b }

/-- Witness fixture: a collection with one over-long and one short
attribute column. -/
def fieldsGdf : GeoDataFrame Unit Unit :=
  { cols := ["attribute_one", "id"], rows := [((), ())], crs := some ⟨some 4326⟩ }

/-- Witness for C4 at `fieldsGdf`: the long name is a member column, the
theorem applies, and its conditional conjuncts evaluate at that column. -/
theorem shapefile_field_truncation_witness :
    "attribute_one" ∈ gdfColumns fieldsGdf ∧
      ((_truncate_fields_for_shp (gdfColumns fieldsGdf)).2
          = [truncWarn "attribute_one"] ∧
        applyRename (_truncate_fields_for_shp (gdfColumns fieldsGdf)).1 "attribute_one"
          = "attribute_" ∧
        _gdf_to_bytes unitLib true fieldsGdf "shapefile" "base"
          = ExportResult.ok () "base.zip" [truncWarn "attribute_one"]) := by
  have h := shapefile_field_truncation unitLib fieldsGdf "base" "attribute_one"
    (by decide)
  refine ⟨by decide, ?_, ?_, ?_⟩
  · rw [h.1]; decide
  · rw [(h.2.1 (by decide)).1]; decide
  · have := h.2.2.2.2 () (by decide) rfl
    rw [this, h.1]
    decide

/-- A collection whose two over-long attribute names share their first
10 characters. -/
def collideGdf : GeoDataFrame Unit Unit :=
  { cols := ["attribute_one", "attribute_two"], rows := [], crs := none }

/-- C10: the 10-character truncation mapping is not injective: two
distinct over-long attribute names sharing a 10-character head are both
renamed to that same head during shapefile export with auto-rename
enabled, the output schema contains the duplicated name, and the recorded
notes are exactly the two per-field truncation warnings — no collision is
detected or reported. -/
theorem shapefile_truncation_collision :
    "attribute_one" ≠ "attribute_two" ∧
    10 < "attribute_one".length ∧ 10 < "attribute_two".length ∧
    applyRename (_truncate_fields_for_shp (gdfColumns collideGdf)).1 "attribute_one"
      = applyRename (_truncate_fields_for_shp (gdfColumns collideGdf)).1 "attribute_two" ∧
    (renameColumns collideGdf (_truncate_fields_for_shp (gdfColumns collideGdf)).1).cols
      = ["attribute_", "attribute_"] ∧
    _gdf_to_bytes unitLib true collideGdf "shapefile" "base"
      = ExportResult.ok () "base.zip"
          [truncWarn "attribute_one", truncWarn "attribute_two"] := by
  refine ⟨by decide, by decide, by decide, by decide, by decide, by decide⟩

/-- C5: before KML export, a collection whose CRS is missing or whose
EPSG code differs from 4326 is relabelled to EPSG:4326 without touching
rows (geometries and attributes are the very same values — a label-only
change), and the KML writer receives exactly that relabelled collection;
GPX export hands the writer the collection unchanged, with no relabel. -/
theorem kml_relabel_label_only {A G B : Type} (lib : GeoLib A G B) (ar : Bool)
    (gdf : GeoDataFrame A G) (base : String) :
    (kmlPrep gdf).rows = gdf.rows ∧ (kmlPrep gdf).cols = gdf.cols ∧
    ((gdf.crs = none ∨ ∃ c, gdf.crs = some c ∧ c.epsg ≠ some 4326) →
      kmlPrep gdf = set_crs gdf 4326 ∧ (kmlPrep gdf).crs = some ⟨some 4326⟩) ∧
    (∀ b : B, lib.kml_write (kmlPrep gdf) = Except.ok b →
      _gdf_to_bytes lib ar gdf "kml" base = ExportResult.ok b (base ++ ".kml") []) ∧
    (∀ b : B, lib.gpx_write gdf = Except.ok b →
      _gdf_to_bytes lib ar gdf "gpx" base = ExportResult.ok b (base ++ ".gpx") []) := by
  have hrows : (kmlPrep gdf).rows = gdf.rows ∧ (kmlPrep gdf).cols = gdf.cols := by
    simp only [kmlPrep]
    cases gdf.crs with
    | none => exact ⟨rfl, rfl⟩
    | some c =>
      dsimp only
      by_cases he : c.epsg = some (4326 : Int)
      · rw [if_pos he]; exact ⟨rfl, rfl⟩
      · rw [if_neg he]; exact ⟨rfl, rfl⟩
  refine ⟨hrows.1, hrows.2, ?_, ?_, ?_⟩
  · intro hcond
    have hp : kmlPrep gdf = set_crs gdf 4326 := by
      simp only [kmlPrep]
      cases hcr : gdf.crs with
      | none => rfl
      | some c =>
        cases hcond with
        | inl h0 => rw [hcr] at h0; cases h0
        | inr h1 =>
          obtain ⟨c2, hc2, hne⟩ := h1
          rw [hcr] at hc2
          cases hc2
          dsimp only
          rw [if_neg hne]
    exact ⟨hp, by rw [hp]; rfl⟩
  · intro b hw
    have hfmt : pyLower "kml" = "kml" := rfl
    simp only [_gdf_to_bytes, hfmt]
    rw [hw]
    simp
  · intro b hw
    have hfmt : pyLower "gpx" = "gpx" := rfl
    simp only [_gdf_to_bytes, hfmt]
    rw [hw]
    simp

/-- C6: export raises `ValueError("Unsupported output format: …")` for
every (lowercased) format key outside the five supported ones — in
particular for the key `"shp"` — and a KML or GPX driver exception is
re-raised to the caller, with the note suggesting GeoJSON/GPKG recorded
in the local messages at the moment of the raise. -/
theorem export_unsupported_or_reraise {A G B : Type} (lib : GeoLib A G B)
    (ar : Bool) (gdf : GeoDataFrame A G) (base fmt : String)
    (hf : pyLower fmt ∉ (["geojson", "gpkg", "kml", "gpx", "shapefile"] : List String)) :
    _gdf_to_bytes lib ar gdf fmt base
      = ExportResult.err (ExportErr.unsupportedFormat (pyLower fmt)) [] ∧
    _gdf_to_bytes lib ar gdf "shp" base
      = ExportResult.err (ExportErr.unsupportedFormat "shp") [] ∧
    (∀ e : String, lib.kml_write (kmlPrep gdf) = Except.error e →
      _gdf_to_bytes lib ar gdf "kml" base
        = ExportResult.err (ExportErr.driverError e)
            ["KML write failed (" ++ e ++ "); use GeoJSON/GPKG instead."]) ∧
    (∀ e : String, lib.gpx_write gdf = Except.error e →
      _gdf_to_bytes lib ar gdf "gpx" base
        = ExportResult.err (ExportErr.driverError e)
            ["GPX write failed (" ++ e ++ "); use GeoJSON/GPKG instead."]) := by
  refine ⟨?_, ?_, ?_, ?_⟩
  · have h1 : pyLower fmt ≠ "geojson" := fun h => hf (by simp [h])
    have h2 : pyLower fmt ≠ "gpkg" := fun h => hf (by simp [h])
    have h3 : pyLower fmt ≠ "kml" := fun h => hf (by simp [h])
    have h4 : pyLower fmt ≠ "gpx" := fun h => hf (by simp [h])
    have h5 : pyLower fmt ≠ "shapefile" := fun h => hf (by simp [h])
    simp only [_gdf_to_bytes]
    rw [if_neg h1, if_neg h2, if_neg h3, if_neg h4, if_neg h5]
  · have hfmt : pyLower "shp" = "shp" := rfl
    simp [_gdf_to_bytes, hfmt]
  · intro e hw
    have hfmt : pyLower "kml" = "kml" := rfl
    simp only [_gdf_to_bytes, hfmt]
    rw [hw]
    simp
  · intro e hw
    have hfmt : pyLower "gpx" = "gpx" := rfl
    simp only [_gdf_to_bytes, hfmt]
    rw [hw]
    simp

/-- Witness for C6 at the concrete key `"shp"`. -/
theorem export_unsupported_or_reraise_witness :
    pyLower "shp" ∉ (["geojson", "gpkg", "kml", "gpx", "shapefile"] : List String) ∧
      _gdf_to_bytes unitLib true fieldsGdf "shp" "base"
        = ExportResult.err (ExportErr.unsupportedFormat (pyLower "shp")) [] := by
  refine ⟨by decide, ?_⟩
  exact (export_unsupported_or_reraise unitLib true fieldsGdf "base" "shp" (by decide)).1

/-- The C7 scenario table: columns `lat, lon, name` with rows
`(12.9, 77.6, "A")`, `(NaN, 77.6, "B")`, `(13.0, 77.7, "C")`. -/
def dfC7 : DataFrame :=
  { cols := ["lat", "lon", "name"]
    rows := [[Cell.num (129/10), Cell.num (776/10), Cell.str "A"],
             [Cell.nan, Cell.num (776/10), Cell.str "B"],
             [Cell.num 13, Cell.num (777/10), Cell.str "C"]] }

/-- C7: tabular-to-points ingestion with existing coordinate columns and a
parseable source EPSG succeeds (dropping is silent, not an error); the
surviving attribute rows are exactly the coerced rows whose latitude and
longitude cells are present and numeric after coercion; every surviving
row carries one point built as `Point(lon, lat)` from its coerced cells;
the collection keeps the table's columns and gets CRS `EPSG:{src_epsg}`.
In the concrete scenario table `dfC7` with source EPSG 4326, exactly the
two point features "A" and "C" result, row "B" being dropped. -/
theorem csv_points_contract (pnum : String → Option ℚ) (df : DataFrame)
    (lat_col lon_col epsg : String) (n : Int)
    (hlat : lat_col ∈ df.cols) (hlon : lon_col ∈ df.cols)
    (hE : pyInt epsg = some n) :
    (∃ g, _read_csv_points pnum df lat_col lon_col epsg = Except.ok g ∧
      g.crs = some ⟨some n⟩ ∧ g.cols = df.cols ∧
      g.rows.map Prod.fst
        = (df.rows.map
            (coerceRow pnum (df.cols.indexOf lat_col) (df.cols.indexOf lon_col))).filter
            (keepRow (df.cols.indexOf lat_col) (df.cols.indexOf lon_col)) ∧
      (∀ p ∈ g.rows,
        keepRow (df.cols.indexOf lat_col) (df.cols.indexOf lon_col) p.1 = true ∧
        p.2 = ⟨(cellAt p.1 (df.cols.indexOf lon_col)).val,
               (cellAt p.1 (df.cols.indexOf lat_col)).val⟩)) ∧
    _read_csv_points pnum dfC7 "lat" "lon" "4326"
      = Except.ok
          { cols := ["lat", "lon", "name"]
            rows := [([Cell.num (129/10), Cell.num (776/10), Cell.str "A"],
                      ⟨776/10, 129/10⟩),
                     ([Cell.num 13, Cell.num (777/10), Cell.str "C"],
                      ⟨777/10, 13⟩)]
            crs := some ⟨some 4326⟩ } := by
  constructor
  · simp only [_read_csv_points]
    rw [if_pos ⟨hlat, hlon⟩, hE]
    refine ⟨_, rfl, rfl, rfl, ?_, ?_⟩
    · rw [List.map_map]
      have hfst : (Prod.fst ∘ fun r : List Cell =>
          ((r, (⟨(cellAt r (df.cols.indexOf lon_col)).val,
                 (cellAt r (df.cols.indexOf lat_col)).val⟩ : Point)) :
            List Cell × Point)) = id := rfl
      rw [hfst, List.map_id]
      exact filter_map_filter _ _ _
        (keepRow_coerce_false pnum (df.cols.indexOf lat_col) (df.cols.indexOf lon_col))
        df.rows
    · intro p hp
      obtain ⟨r, hr, rfl⟩ := List.mem_map.mp hp
      exact ⟨(List.mem_filter.mp hr).2, rfl⟩
  · rfl

/-- Witness for C7: the general contract applied to the scenario table. -/
theorem csv_points_contract_witness :
    ("lat" ∈ dfC7.cols ∧ "lon" ∈ dfC7.cols ∧ pyInt "4326" = some 4326) ∧
      (∃ g, _read_csv_points (fun _ => none) dfC7 "lat" "lon" "4326" = Except.ok g ∧
        g.crs = some ⟨some 4326⟩ ∧ g.cols = dfC7.cols ∧
        g.rows.map Prod.fst
          = (dfC7.rows.map
              (coerceRow (fun _ => none) (dfC7.cols.indexOf "lat")
                (dfC7.cols.indexOf "lon"))).filter
              (keepRow (dfC7.cols.indexOf "lat") (dfC7.cols.indexOf "lon")) ∧
        (∀ p ∈ g.rows,
          keepRow (dfC7.cols.indexOf "lat") (dfC7.cols.indexOf "lon") p.1 = true ∧
          p.2 = ⟨(cellAt p.1 (dfC7.cols.indexOf "lon")).val,
                 (cellAt p.1 (dfC7.cols.indexOf "lat")).val⟩)) := by
  refine ⟨⟨by decide, by decide, by decide⟩, ?_⟩
  exact (csv_points_contract (fun _ => none) dfC7 "lat" "lon" "4326" 4326
    (by decide) (by decide) (by decide)).1

/-- Witness for C8 at a concrete shp-less archive. -/
theorem zip_ingestion_missing_payload_witness :
    pyLower (pySuffix "arch.zip") = ".zip" ∧
      _read_vector_any
          ({ name := "arch.zip", zipEntries := ["a.txt", "b.dbf"],
             read := fun _ => Except.ok ({ cols := [], rows := [], crs := none } :
               GeoDataFrame Unit Unit) } : UploadedFile Unit Unit)
        = Except.error "No .shp found inside the uploaded .zip" := by
  refine ⟨by decide, ?_⟩
  exact (zip_ingestion_missing_payload _ (by decide)).1 (by decide)

/-! ### Batch lemmas for C1 -/

/-- Ingestion failure makes the whole job pipeline fail. -/
theorem jobExportOk_false_of_readFail {A G B : Type} (lib : GeoLib A G B)
    (opts : Options) (fmt : String) (uf : UploadedFile A G)
    (h : isReadFail uf = true) : jobExportOk lib opts fmt uf = false := by
  simp only [isReadFail] at h
  simp only [jobExportOk]
  cases hre : _read_vector_any uf with
  | error e => rfl
  | ok g => rw [hre] at h; cases h

/-- Shape of one batch iteration's archive writes: exactly one report
entry named `<stem>_report.txt`, and one output artifact exactly when the
whole pipeline succeeds on a non-tabular job. -/
theorem processOne_parts {A G B : Type} (lib : GeoLib A G B) (opts : Options)
    (fmt : String) (uf : UploadedFile A G) :
    (((processOne lib opts fmt uf).1.filter (fun e => e.2.isText)).map Prod.fst)
        = [pyStem uf.name ++ "_report.txt"] ∧
    ((processOne lib opts fmt uf).1.filter (fun e => e.2.isBytes)).length
        = (if isTabular uf.name = false ∧ jobExportOk lib opts fmt uf = true
           then 1 else 0) ∧
    (processOne lib opts fmt uf).2.1 = pyStem uf.name ++ "_report.txt" := by
  cases htb : isTabular uf.name with
  | true =>
    refine ⟨?_, ?_, ?_⟩ <;>
      simp [processOne, htb, ZipData.isText, ZipData.isBytes]
  | false =>
    simp only [processOne, htb, Bool.false_eq_true, if_false, jobExportOk]
    cases hre : _read_vector_any uf with
    | error e =>
      refine ⟨?_, ?_, ?_⟩ <;> simp [ZipData.isText, ZipData.isBytes]
    | ok gdf0 =>
      cases hex : _gdf_to_bytes lib opts.auto_rename_fields
          (_reproject lib (_apply_repairs_and_ops lib opts gdf0).1
            opts.target_epsg).1 fmt (pyStem uf.name) with
      | err e msgs =>
        refine ⟨?_, ?_, ?_⟩ <;> simp [hex, ZipData.isText, ZipData.isBytes]
      | ok b nm msgs =>
        refine ⟨?_, ?_, ?_⟩ <;> simp [hex, ZipData.isText, ZipData.isBytes]

theorem run_batch_reports_names {A G B : Type} (lib : GeoLib A G B)
    (opts : Options) (fmt : String) (files : List (UploadedFile A G)) :
    (run_batch lib opts fmt files).2.map Prod.fst
      = files.map (fun v => pyStem v.name ++ "_report.txt") := by
  simp only [run_batch, List.map_map]
  exact List.map_eq_map_iff.mpr
    (fun v _ => (processOne_parts lib opts fmt v).2.2)

theorem run_batch_text_names {A G B : Type} (lib : GeoLib A G B)
    (opts : Options) (fmt : String) (files : List (UploadedFile A G)) :
    (((run_batch lib opts fmt files).1.filter (fun e => e.2.isText)).map Prod.fst)
      = files.map (fun v => pyStem v.name ++ "_report.txt") := by
  induction files with
  | nil => rfl
  | cons v rest ih =>
    simp only [run_batch, List.map_cons, List.flatten_cons, List.filter_append,
      List.map_append] at ih ⊢
    rw [(processOne_parts lib opts fmt v).1, ih]
    rfl

theorem run_batch_bytes_count {A G B : Type} (lib : GeoLib A G B)
    (opts : Options) (fmt : String) (files : List (UploadedFile A G))
    (hall : ∀ v ∈ files, isTabular v.name = false ∧
      (isReadFail v = true ∨ jobExportOk lib opts fmt v = true)) :
    ((run_batch lib opts fmt files).1.filter (fun e => e.2.isBytes)).length
      = files.length - (files.filter (fun v => isReadFail v)).length := by
  induction files with
  | nil => rfl
  | cons v rest ih =>
    have hv := hall v (List.mem_cons_self _ _)
    have hrest := ih (fun w hw => hall w (List.mem_cons_of_mem _ hw))
    have hKle := List.length_filter_le (fun w => isReadFail w) rest
    have hsplit : ((run_batch lib opts fmt (v :: rest)).1.filter
          (fun e => e.2.isBytes)).length
        = ((processOne lib opts fmt v).1.filter (fun e => e.2.isBytes)).length
          + ((run_batch lib opts fmt rest).1.filter (fun e => e.2.isBytes)).length := by
      simp [run_batch, List.filter_append]
    rw [hsplit]
    have hcnt := (processOne_parts lib opts fmt v).2.1
    cases hread : isReadFail v with
    | true =>
      have hfail := jobExportOk_false_of_readFail lib opts fmt v hread
      rw [hfail] at hcnt
      simp only [Bool.false_eq_true, and_false, if_false] at hcnt
      have hK : List.filter (fun w => isReadFail w) (v :: rest)
          = v :: List.filter (fun w => isReadFail w) rest := by
        simp [List.filter_cons, hread]
      rw [hcnt, hrest, hK]
      simp only [List.length_cons]
      omega
    | false =>
      have hok : jobExportOk lib opts fmt v = true := by
        cases hv.2 with
        | inl h0 => rw [hread] at h0; cases h0
        | inr h1 => exact h1
      rw [hv.1, hok] at hcnt
      simp at hcnt
      have hK : List.filter (fun w => isReadFail w) (v :: rest)
          = List.filter (fun w => isReadFail w) rest := by
        simp [List.filter_cons, hread]
      rw [hcnt, hrest, hK]
      simp only [List.length_cons]
      omega

/-! Batch witness fixtures -/

/-- One-feature collection used by the batch witnesses. -/
def smallGdf : GeoDataFrame Unit Unit :=
  { cols := ["a"], rows := [((), ())], crs := some ⟨some 4326⟩ }

/-- Default sidebar options. -/
def unitOpts : Options :=
  { do_make_valid := true, use_buffer_fix := false, do_simplify := false,
    simplify_tol := 0, auto_rename_fields := true, target_epsg := "4326" }

/-- A job whose ingestion and export succeed. -/
def wGood : UploadedFile Unit Unit :=
  { name := "good.geojson", zipEntries := [], read := fun _ => Except.ok smallGdf }

/-- A job whose ingestion raises. -/
def wBad : UploadedFile Unit Unit :=
  { name := "bad.geojson", zipEntries := [], read := fun _ => Except.error "parse error" }

/-- A tabular job (rejected in batch mode). -/
def wTab : UploadedFile Unit Unit :=
  { name := "table.csv", zipEntries := [], read := fun _ => Except.error "unused" }

/-- C1: over a batch run, every job — whatever its outcome — contributes
exactly one report entry named `<stem>_report.txt` to the result archive
(and one entry to the session report list, in job order); an output
artifact is written exactly when the job's load/condition/reproject/export
pipeline succeeds, so a batch of N non-tabular jobs of which K fail at
ingestion (the rest exporting successfully) yields N report files and
N − K artifacts; a tabular job is rejected with the fixed skip note; and
each job's archive writes and report are those of that job alone,
prepended to the remaining batch — a failure in one job never prevents
the processing of subsequent jobs. -/
theorem batch_reports_and_artifacts {A G B : Type} (lib : GeoLib A G B)
    (opts : Options) (fmt : String) (files : List (UploadedFile A G))
    (uf : UploadedFile A G)
    (hall : ∀ v ∈ files, isTabular v.name = false ∧
      (isReadFail v = true ∨ jobExportOk lib opts fmt v = true)) :
    (run_batch lib opts fmt files).2.map Prod.fst
        = files.map (fun v => pyStem v.name ++ "_report.txt") ∧
    (((run_batch lib opts fmt files).1.filter (fun e => e.2.isText)).map Prod.fst)
        = files.map (fun v => pyStem v.name ++ "_report.txt") ∧
    ((run_batch lib opts fmt files).1.filter (fun e => e.2.isBytes)).length
        = files.length - (files.filter (fun v => isReadFail v)).length ∧
    (isTabular uf.name = true →
      processOne lib opts fmt uf
        = ([(pyStem uf.name ++ "_report.txt", ZipData.text skipNote)],
           (pyStem uf.name ++ "_report.txt", skipNote))) ∧
    ((processOne lib opts fmt uf).1.filter (fun e => e.2.isBytes)).length
        = (if isTabular uf.name = false ∧ jobExportOk lib opts fmt uf = true
           then 1 else 0) ∧
    (((processOne lib opts fmt uf).1.filter (fun e => e.2.isText)).map Prod.fst)
        = [pyStem uf.name ++ "_report.txt"] ∧
    run_batch lib opts fmt (uf :: files)
        = ((processOne lib opts fmt uf).1 ++ (run_batch lib opts fmt files).1,
           (processOne lib opts fmt uf).2 :: (run_batch lib opts fmt files).2) := by
  refine ⟨run_batch_reports_names lib opts fmt files,
    run_batch_text_names lib opts fmt files,
    run_batch_bytes_count lib opts fmt files hall, ?_,
    (processOne_parts lib opts fmt uf).2.1,
    (processOne_parts lib opts fmt uf).1, ?_⟩
  · intro ht
    have hj : joinReport [skipNote] = skipNote := by decide
    simp [processOne, ht, hj]
  · simp [run_batch]

/-- Witness for C1: a two-job batch (one success, one ingestion failure)
plus a tabular job, all evaluated concretely. -/
theorem batch_reports_and_artifacts_witness :
    ((run_batch unitLib unitOpts "geojson" [wGood, wBad]).2.map Prod.fst
        = ["good_report.txt", "bad_report.txt"] ∧
      ((run_batch unitLib unitOpts "geojson" [wGood, wBad]).1.filter
          (fun e => e.2.isBytes)).length = 1 ∧
      processOne unitLib unitOpts "geojson" wTab
        = ([("table_report.txt", ZipData.text skipNote)],
           ("table_report.txt", skipNote))) := by
  have h := batch_reports_and_artifacts unitLib unitOpts "geojson" [wGood, wBad] wTab
    (by decide)
  refine ⟨?_, ?_, ?_⟩
  · rw [h.1]; rfl
  · rw [h.2.2.1]; decide
  · exact h.2.2.2.1 (by decide)

end GISConv
